import Mathlib

/-!
# Verification of the FrontEndGravitySim core (src/src/SolarSystemSimulation.tsx)

Shallow embedding of the simulation core: the `Body` data model, the per-frame
step function `simulate`, the click-spawn `handleCanvasClick`, and the
initialisation / reset state builders.

Numbers: the source works on JavaScript floats; we model them as elements of an
arbitrary linear ordered field `α` (idealised exact arithmetic).  The
transcendental primitives `Math.sqrt`, `Math.atan2`, `Math.cos`, `Math.sin` and
the constant `Math.PI` are passed as explicit parameters, so the definitions
stay computable; theorems that need their real behaviour instantiate them with
`Real.sqrt`, `Real.cos`, ... over `α = ℝ`.  The calls `Math.random()` are
modelled as injected parameters `u1 u2 u3` (one per call site), and the CSS
string template for the colour as an injected formatter `hsl`.

JavaScript's `body === otherBody` reference test in the inner force loop is
modelled as index equality: every element of the `bodies` array is a distinct
freshly-allocated object, so two occurrences are `===` exactly when they are
the same array slot.
-/

/-- A simulation body, mirroring the `Body` interface of the source
(`x y vx vy mass radius color isSun tail`). -/
structure Body (α : Type) where
  x : α
  y : α
  vx : α
  vy : α
  mass : α
  radius : α
  color : String
  isSun : Bool
  tail : List (α × α)
deriving DecidableEq, Repr

variable {α : Type} [LinearOrderedField α]

/-- Gravitational constant of the source: `const G = 100`. -/
def G : α := 100

/-- Source constant `baseTimeStep = 0.02`, exactly 1/50 in the idealised field. -/
def baseTimeStep : α := 1 / 50

/-- Source constant `tailLength = 100`. -/
def tailLength : Nat := 100

/-- JavaScript `arr.slice(-n)`: the last `min n arr.length` elements. -/
def sliceLast (n : Nat) (l : List β) : List β := l.drop (l.length - n)

/-- The acceleration accumulation loop of `simulate` (lines 54-69): starting
from `ax = 0, ay = 0`, fold over all bodies with their indices, skipping the
body itself (`body === otherBody`), and adding the guarded gravitational
contribution of each other body. -/
def accumAccel (sqrt : α → α) (bodies : List (Body α)) (i : Nat) (body : Body α) : α × α :=
  bodies.enum.foldl
    (fun acc q =>
      if q.1 = i then acc
      else
        let otherBody := q.2
        let dx := otherBody.x - body.x
        let dy := otherBody.y - body.y
        let distance := sqrt (dx * dx + dy * dy)
        if body.radius + otherBody.radius < distance then
          let force := G * body.mass * otherBody.mass / (distance * distance)
          (acc.1 + force * dx / (distance * body.mass),
           acc.2 + force * dy / (distance * body.mass))
        else acc)
    ((0 : α), (0 : α))

/-- The per-body update of `simulate`'s `bodies.map` callback (lines 51-84). -/
def stepBody (sqrt : α → α) (timeScale : α) (bodies : List (Body α))
    (i : Nat) (body : Body α) : Body α :=
  if body.isSun then
    { body with tail := sliceLast tailLength (body.tail ++ [(body.x, body.y)]) }
  else
    let a := accumAccel sqrt bodies i body
    let newVx := body.vx + a.1 * baseTimeStep * timeScale
    let newVy := body.vy + a.2 * baseTimeStep * timeScale
    let newX := body.x + newVx * baseTimeStep * timeScale
    let newY := body.y + newVy * baseTimeStep * timeScale
    { body with
      vx := newVx
      vy := newVy
      x := newX
      y := newY
      tail := sliceLast tailLength (body.tail ++ [(newX, newY)]) }

/-- The state-update part of `simulate` (lines 51-86): map every body, with the
anchor (`isSun`) only receiving a trail append and every other body receiving
force accumulation, semi-implicit Euler integration, and a trail append. -/
def simulate (sqrt : α → α) (timeScale : α) (bodies : List (Body α)) : List (Body α) :=
  bodies.enum.map fun p => stepBody sqrt timeScale bodies p.1 p.2

/-- The step function `simulate` iterated `n` times at a fixed `timeScale`. -/
def stepN (sqrt : α → α) (timeScale : α) (bodies : List (Body α)) : Nat → List (Body α)
  | 0 => bodies
  | n + 1 => simulate sqrt timeScale (stepN sqrt timeScale bodies n)

/-- Source `handleCanvasClick` (lines 133-164), restricted to its body-state effect:
find the anchor (`bodies.find(body => body.isSun)`); if none, do nothing;
otherwise seed an orbit velocity from the click point and append the new body.
`u1, u2, u3` are the three `Math.random()` draws (mass, radius, hue) and `hsl`
renders the colour template string. -/
def handleCanvasClick (sqrt : α → α) (atan2 : α → α → α) (cos sin : α → α) (pi : α)
    (hsl : α → String) (u1 u2 u3 : α)
    (bodies : List (Body α)) (x y : α) : List (Body α) :=
  match bodies.find? (fun body => body.isSun) with
  | none => bodies
  | some sun =>
    let dx := x - sun.x
    let dy := y - sun.y
    let distance := sqrt (dx * dx + dy * dy)
    let speed := sqrt (G * sun.mass / distance) * (4 / 5)
    let angle := atan2 dy dx + pi / 2
    let newBody : Body α :=
      { x := x
        y := y
        vx := speed * cos angle
        vy := speed * sin angle
        mass := 1 + u1 * 9
        radius := 3 + u2 * 5
        color := hsl (u3 * 360)
        isSun := false
        tail := [] }
    bodies ++ [newBody]

/-- The initial state installed by the `useEffect` on `size` (lines 27-34):
a single yellow anchor of mass 1000 and radius 15 at the viewport centre. -/
def initBodies (width height : α) : List (Body α) :=
  [{ x := width / 2, y := height / 2, vx := 0, vy := 0,
     mass := 1000, radius := 15, color := "yellow",
     isSun := true, tail := [] }]

/-- Source `handleReset` (lines 166-175), restricted to its body-state effect: replace
the collection with the same single anchor. -/
def handleReset (width height : α) : List (Body α) :=
  [{ x := width / 2, y := height / 2, vx := 0, vy := 0,
     mass := 1000, radius := 15, color := "yellow",
     isSun := true, tail := [] }]

/-- A placeholder body used only as the default of `List.getD` at in-range
indices. -/
def dummyBody : Body α :=
  { x := 0, y := 0, vx := 0, vy := 0, mass := 0, radius := 0,
    color := "", isSun := false, tail := [] }

/-! ## Basic structural lemmas -/

theorem length_simulate (sqrt : α → α) (timeScale : α) (bodies : List (Body α)) :
    (simulate sqrt timeScale bodies).length = bodies.length := by
  simp [simulate, List.enum_length]

theorem length_stepN (sqrt : α → α) (timeScale : α) (bodies : List (Body α)) :
    ∀ n, (stepN sqrt timeScale bodies n).length = bodies.length
  | 0 => rfl
  | n + 1 => by
    simpa [stepN, length_simulate] using length_stepN sqrt timeScale bodies n

theorem getD_simulate (sqrt : α → α) (timeScale : α) (bodies : List (Body α))
    (i : Nat) (hi : i < bodies.length) :
    (simulate sqrt timeScale bodies).getD i dummyBody =
      stepBody sqrt timeScale bodies i (bodies.getD i dummyBody) := by
  simp [simulate, List.getD_eq_getElem?_getD, List.getElem?_map, List.getElem?_enum,
    List.getElem?_eq_getElem hi]

/-! ## `sliceLast` lemmas -/

theorem length_sliceLast (n : Nat) (l : List β) :
    (sliceLast n l).length = min l.length n := by
  simp [sliceLast]; omega

theorem sliceLast_of_length_le {n : Nat} {l : List β} (h : l.length ≤ n) :
    sliceLast n l = l := by
  simp [sliceLast, Nat.sub_eq_zero_of_le h]

theorem drop_append_of_le {l1 l2 : List β} {n : Nat} (h : n ≤ l1.length) :
    (l1 ++ l2).drop n = l1.drop n ++ l2 := by
  induction l1 generalizing n with
  | nil => simp at h; simp [h]
  | cons a l ih =>
    cases n with
    | zero => simp
    | succ m => simpa using ih (by simpa using h)

theorem sliceLast_sliceLast_append (n : Nat) (l l2 : List β) :
    sliceLast n (sliceLast n l ++ l2) = sliceLast n (l ++ l2) := by
  unfold sliceLast
  rw [← drop_append_of_le (by omega), List.drop_drop]
  congr 1
  simp only [List.length_append, List.length_drop]
  omega

/-! ## Force accumulation as a sum of pair contributions -/

/-- The guarded contribution of `otherBody` to the acceleration of `body`:
one iteration of the inner `forEach` of `simulate` (lines 57-69), for a pair
that is not skipped by the self test. -/
def pairAccel (sqrt : α → α) (body otherBody : Body α) : α × α :=
  let dx := otherBody.x - body.x
  let dy := otherBody.y - body.y
  let distance := sqrt (dx * dx + dy * dy)
  if body.radius + otherBody.radius < distance then
    let force := G * body.mass * otherBody.mass / (distance * distance)
    (force * dx / (distance * body.mass), force * dy / (distance * body.mass))
  else (0, 0)

theorem accumAccel_eq_sum (sqrt : α → α) (bodies : List (Body α)) (i : Nat)
    (body : Body α) :
    accumAccel sqrt bodies i body =
      ((bodies.enum.map fun q =>
          (if q.1 = i then ((0 : α), (0 : α)) else pairAccel sqrt body q.2).1).sum,
       (bodies.enum.map fun q =>
          (if q.1 = i then ((0 : α), (0 : α)) else pairAccel sqrt body q.2).2).sum) := by
  unfold accumAccel
  have key : ∀ (l : List (Nat × Body α)) (init : α × α),
      l.foldl
        (fun acc q =>
          if q.1 = i then acc
          else
            let otherBody := q.2
            let dx := otherBody.x - body.x
            let dy := otherBody.y - body.y
            let distance := sqrt (dx * dx + dy * dy)
            if body.radius + otherBody.radius < distance then
              let force := G * body.mass * otherBody.mass / (distance * distance)
              (acc.1 + force * dx / (distance * body.mass),
               acc.2 + force * dy / (distance * body.mass))
            else acc)
        init =
      (init.1 + (l.map fun q =>
          (if q.1 = i then ((0 : α), (0 : α)) else pairAccel sqrt body q.2).1).sum,
       init.2 + (l.map fun q =>
          (if q.1 = i then ((0 : α), (0 : α)) else pairAccel sqrt body q.2).2).sum) := by
    intro l
    induction l with
    | nil => intro init; simp
    | cons a t ih =>
      intro init
      rw [List.foldl_cons, ih, List.map_cons, List.map_cons, List.sum_cons, List.sum_cons]
      by_cases h : a.1 = i
      · simp [h]
      · simp only [h, if_false, ite_false, pairAccel]
        split_ifs with hg
        · simp only [Prod.mk.injEq]
          constructor <;> ring
        · simp
  rw [key]
  simp

/-- C4: a pair of bodies whose centre-to-centre distance is at most the sum of
their radii contributes exactly zero acceleration; and whenever the guard does
let a pair through, the computed distance (the divisor of the force terms) is
nonzero, so the division is protected. -/
theorem overlap_pair_contributes_zero (body otherBody : Body ℝ) :
    (Real.sqrt ((otherBody.x - body.x) * (otherBody.x - body.x) +
          (otherBody.y - body.y) * (otherBody.y - body.y)) ≤
        body.radius + otherBody.radius →
      pairAccel Real.sqrt body otherBody = (0, 0)) ∧
    (0 ≤ body.radius + otherBody.radius →
      body.radius + otherBody.radius <
          Real.sqrt ((otherBody.x - body.x) * (otherBody.x - body.x) +
            (otherBody.y - body.y) * (otherBody.y - body.y)) →
      Real.sqrt ((otherBody.x - body.x) * (otherBody.x - body.x) +
          (otherBody.y - body.y) * (otherBody.y - body.y)) ≠ 0) := by
  constructor
  · intro hle
    unfold pairAccel
    rw [if_neg (not_lt.mpr hle)]
  · intro hr hlt
    exact (lt_of_le_of_lt hr hlt).ne'

/-- A concrete real body at `(x, y)` with radius `r`, for witnesses. -/
def mkBodyR (x y r : ℝ) : Body ℝ :=
  { x := x, y := y, vx := 0, vy := 0, mass := 1, radius := r,
    color := "", isSun := false, tail := [] }

/-- A concrete rational body at `(x, y)` with radius `r`, mass `m` and anchor
flag `anchor`, for witnesses. -/
def mkBodyQ (x y r m : ℚ) (anchor : Bool) : Body ℚ :=
  { x := x, y := y, vx := 0, vy := 0, mass := m, radius := r,
    color := "", isSun := anchor, tail := [] }

/-- Witness for C4 on two concrete pairs: two bodies at the same centre
contribute zero, and a separated pair has a nonzero distance value. -/
theorem overlap_pair_contributes_zero_witness :
    Real.sqrt (((mkBodyR 0 0 5).x - (mkBodyR 0 0 3).x) *
          ((mkBodyR 0 0 5).x - (mkBodyR 0 0 3).x) +
        ((mkBodyR 0 0 5).y - (mkBodyR 0 0 3).y) * ((mkBodyR 0 0 5).y - (mkBodyR 0 0 3).y)) ≤
      (mkBodyR 0 0 3).radius + (mkBodyR 0 0 5).radius ∧
    pairAccel Real.sqrt (mkBodyR 0 0 3) (mkBodyR 0 0 5) = (0, 0) ∧
    (0 : ℝ) ≤ (mkBodyR 0 0 1).radius + (mkBodyR 100 0 2).radius ∧
    (mkBodyR 0 0 1).radius + (mkBodyR 100 0 2).radius <
      Real.sqrt (((mkBodyR 100 0 2).x - (mkBodyR 0 0 1).x) *
          ((mkBodyR 100 0 2).x - (mkBodyR 0 0 1).x) +
        ((mkBodyR 100 0 2).y - (mkBodyR 0 0 1).y) *
          ((mkBodyR 100 0 2).y - (mkBodyR 0 0 1).y)) ∧
    Real.sqrt (((mkBodyR 100 0 2).x - (mkBodyR 0 0 1).x) *
          ((mkBodyR 100 0 2).x - (mkBodyR 0 0 1).x) +
        ((mkBodyR 100 0 2).y - (mkBodyR 0 0 1).y) *
          ((mkBodyR 100 0 2).y - (mkBodyR 0 0 1).y)) ≠ 0 := by
  have hs100 : Real.sqrt (((mkBodyR 100 0 2).x - (mkBodyR 0 0 1).x) *
          ((mkBodyR 100 0 2).x - (mkBodyR 0 0 1).x) +
        ((mkBodyR 100 0 2).y - (mkBodyR 0 0 1).y) *
          ((mkBodyR 100 0 2).y - (mkBodyR 0 0 1).y)) = 100 := by
    rw [show (((mkBodyR 100 0 2).x - (mkBodyR 0 0 1).x) *
          ((mkBodyR 100 0 2).x - (mkBodyR 0 0 1).x) +
        ((mkBodyR 100 0 2).y - (mkBodyR 0 0 1).y) *
          ((mkBodyR 100 0 2).y - (mkBodyR 0 0 1).y)) = (100 : ℝ) ^ 2 from by
      simp [mkBodyR]; norm_num]
    exact Real.sqrt_sq (by norm_num)
  have h0 : Real.sqrt (((mkBodyR 0 0 5).x - (mkBodyR 0 0 3).x) *
          ((mkBodyR 0 0 5).x - (mkBodyR 0 0 3).x) +
        ((mkBodyR 0 0 5).y - (mkBodyR 0 0 3).y) * ((mkBodyR 0 0 5).y - (mkBodyR 0 0 3).y)) ≤
      (mkBodyR 0 0 3).radius + (mkBodyR 0 0 5).radius := by
    rw [show (((mkBodyR 0 0 5).x - (mkBodyR 0 0 3).x) *
          ((mkBodyR 0 0 5).x - (mkBodyR 0 0 3).x) +
        ((mkBodyR 0 0 5).y - (mkBodyR 0 0 3).y) * ((mkBodyR 0 0 5).y - (mkBodyR 0 0 3).y)) =
        (0 : ℝ) from by simp [mkBodyR]]
    rw [Real.sqrt_zero]
    simp [mkBodyR]
    norm_num
  have hlt : (mkBodyR 0 0 1).radius + (mkBodyR 100 0 2).radius <
      Real.sqrt (((mkBodyR 100 0 2).x - (mkBodyR 0 0 1).x) *
          ((mkBodyR 100 0 2).x - (mkBodyR 0 0 1).x) +
        ((mkBodyR 100 0 2).y - (mkBodyR 0 0 1).y) *
          ((mkBodyR 100 0 2).y - (mkBodyR 0 0 1).y)) := by
    rw [hs100]; simp [mkBodyR]; norm_num
  have hr : (0 : ℝ) ≤ (mkBodyR 0 0 1).radius + (mkBodyR 100 0 2).radius := by
    simp [mkBodyR]; norm_num
  exact ⟨h0, (overlap_pair_contributes_zero (mkBodyR 0 0 3) (mkBodyR 0 0 5)).1 h0,
    hr, hlt, (overlap_pair_contributes_zero (mkBodyR 0 0 1) (mkBodyR 100 0 2)).2 hr hlt⟩

/-- C5: the accumulated acceleration of body `i` is the sum, over all enum
positions `j` of the body list with the self position `j = i` contributing
nothing, of the guarded pair contributions; and for a pair whose distance
exceeds the sum of the radii the contribution is exactly the specified law
`(G * m_i * m_j / d ^ 2) * ((pos_j - pos_i) / (d * m_i))` componentwise. -/
theorem accel_is_guarded_gravity_sum (sqrt : α → α) (bodies : List (Body α)) (i : Nat)
    (body otherBody : Body α)
    (hguard : body.radius + otherBody.radius <
      sqrt ((otherBody.x - body.x) * (otherBody.x - body.x) +
        (otherBody.y - body.y) * (otherBody.y - body.y))) :
    accumAccel sqrt bodies i body =
      ((bodies.enum.map fun q =>
          (if q.1 = i then ((0 : α), (0 : α)) else pairAccel sqrt body q.2).1).sum,
       (bodies.enum.map fun q =>
          (if q.1 = i then ((0 : α), (0 : α)) else pairAccel sqrt body q.2).2).sum) ∧
    pairAccel sqrt body otherBody =
      (G * body.mass * otherBody.mass /
          (sqrt ((otherBody.x - body.x) * (otherBody.x - body.x) +
            (otherBody.y - body.y) * (otherBody.y - body.y))) ^ 2 *
        ((otherBody.x - body.x) /
          (sqrt ((otherBody.x - body.x) * (otherBody.x - body.x) +
            (otherBody.y - body.y) * (otherBody.y - body.y)) * body.mass)),
       G * body.mass * otherBody.mass /
          (sqrt ((otherBody.x - body.x) * (otherBody.x - body.x) +
            (otherBody.y - body.y) * (otherBody.y - body.y))) ^ 2 *
        ((otherBody.y - body.y) /
          (sqrt ((otherBody.x - body.x) * (otherBody.x - body.x) +
            (otherBody.y - body.y) * (otherBody.y - body.y)) * body.mass))) := by
  refine ⟨accumAccel_eq_sum sqrt bodies i body, ?_⟩
  unfold pairAccel
  rw [if_pos hguard]
  simp only [Prod.mk.injEq]
  constructor <;> ring

/-- Witness for C5: a concrete separated satellite and anchor over `ℚ` with the
identity in place of the square root. -/
theorem accel_is_guarded_gravity_sum_witness :
    (mkBodyQ 500 300 4 5 false).radius + (mkBodyQ 400 300 15 1000 true).radius <
      (fun q => q) (((mkBodyQ 400 300 15 1000 true).x - (mkBodyQ 500 300 4 5 false).x) *
          ((mkBodyQ 400 300 15 1000 true).x - (mkBodyQ 500 300 4 5 false).x) +
        ((mkBodyQ 400 300 15 1000 true).y - (mkBodyQ 500 300 4 5 false).y) *
          ((mkBodyQ 400 300 15 1000 true).y - (mkBodyQ 500 300 4 5 false).y)) ∧
    (accumAccel (fun q => q) [mkBodyQ 400 300 15 1000 true, mkBodyQ 500 300 4 5 false] 1
        (mkBodyQ 500 300 4 5 false) =
      (([mkBodyQ 400 300 15 1000 true, mkBodyQ 500 300 4 5 false].enum.map fun q =>
          (if q.1 = 1 then ((0 : ℚ), (0 : ℚ))
           else pairAccel (fun q => q) (mkBodyQ 500 300 4 5 false) q.2).1).sum,
       ([mkBodyQ 400 300 15 1000 true, mkBodyQ 500 300 4 5 false].enum.map fun q =>
          (if q.1 = 1 then ((0 : ℚ), (0 : ℚ))
           else pairAccel (fun q => q) (mkBodyQ 500 300 4 5 false) q.2).2).sum) ∧
      pairAccel (fun q => q) (mkBodyQ 500 300 4 5 false) (mkBodyQ 400 300 15 1000 true) =
        (G * (mkBodyQ 500 300 4 5 false).mass * (mkBodyQ 400 300 15 1000 true).mass /
            ((fun q => q)
              (((mkBodyQ 400 300 15 1000 true).x - (mkBodyQ 500 300 4 5 false).x) *
                  ((mkBodyQ 400 300 15 1000 true).x - (mkBodyQ 500 300 4 5 false).x) +
                ((mkBodyQ 400 300 15 1000 true).y - (mkBodyQ 500 300 4 5 false).y) *
                  ((mkBodyQ 400 300 15 1000 true).y - (mkBodyQ 500 300 4 5 false).y))) ^ 2 *
          (((mkBodyQ 400 300 15 1000 true).x - (mkBodyQ 500 300 4 5 false).x) /
            ((fun q => q)
              (((mkBodyQ 400 300 15 1000 true).x - (mkBodyQ 500 300 4 5 false).x) *
                  ((mkBodyQ 400 300 15 1000 true).x - (mkBodyQ 500 300 4 5 false).x) +
                ((mkBodyQ 400 300 15 1000 true).y - (mkBodyQ 500 300 4 5 false).y) *
                  ((mkBodyQ 400 300 15 1000 true).y - (mkBodyQ 500 300 4 5 false).y)) *
              (mkBodyQ 500 300 4 5 false).mass)),
         G * (mkBodyQ 500 300 4 5 false).mass * (mkBodyQ 400 300 15 1000 true).mass /
            ((fun q => q)
              (((mkBodyQ 400 300 15 1000 true).x - (mkBodyQ 500 300 4 5 false).x) *
                  ((mkBodyQ 400 300 15 1000 true).x - (mkBodyQ 500 300 4 5 false).x) +
                ((mkBodyQ 400 300 15 1000 true).y - (mkBodyQ 500 300 4 5 false).y) *
                  ((mkBodyQ 400 300 15 1000 true).y - (mkBodyQ 500 300 4 5 false).y))) ^ 2 *
          (((mkBodyQ 400 300 15 1000 true).y - (mkBodyQ 500 300 4 5 false).y) /
            ((fun q => q)
              (((mkBodyQ 400 300 15 1000 true).x - (mkBodyQ 500 300 4 5 false).x) *
                  ((mkBodyQ 400 300 15 1000 true).x - (mkBodyQ 500 300 4 5 false).x) +
                ((mkBodyQ 400 300 15 1000 true).y - (mkBodyQ 500 300 4 5 false).y) *
                  ((mkBodyQ 400 300 15 1000 true).y - (mkBodyQ 500 300 4 5 false).y)) *
              (mkBodyQ 500 300 4 5 false).mass)))) := by
  have hg : (mkBodyQ 500 300 4 5 false).radius + (mkBodyQ 400 300 15 1000 true).radius <
      (fun q => q) (((mkBodyQ 400 300 15 1000 true).x - (mkBodyQ 500 300 4 5 false).x) *
          ((mkBodyQ 400 300 15 1000 true).x - (mkBodyQ 500 300 4 5 false).x) +
        ((mkBodyQ 400 300 15 1000 true).y - (mkBodyQ 500 300 4 5 false).y) *
          ((mkBodyQ 400 300 15 1000 true).y - (mkBodyQ 500 300 4 5 false).y)) := by
    norm_num [mkBodyQ]
  exact ⟨hg, accel_is_guarded_gravity_sum (fun q => q)
    [mkBodyQ 400 300 15 1000 true, mkBodyQ 500 300 4 5 false] 1
    (mkBodyQ 500 300 4 5 false) (mkBodyQ 400 300 15 1000 true) hg⟩

/-! ## Trail evolution -/

/-- The observable position of body `i` after `k` steps. -/
def posAt (sqrt : α → α) (timeScale : α) (bodies : List (Body α)) (i k : Nat) : α × α :=
  (((stepN sqrt timeScale bodies k).getD i dummyBody).x,
   ((stepN sqrt timeScale bodies k).getD i dummyBody).y)

/-- One step appends the body's post-step position to its trail and re-bounds it,
in both the anchor and the moving branch. -/
theorem tail_simulate (sqrt : α → α) (timeScale : α) (bodies : List (Body α))
    (i : Nat) (hi : i < bodies.length) :
    ((simulate sqrt timeScale bodies).getD i dummyBody).tail =
      sliceLast tailLength ((bodies.getD i dummyBody).tail ++
        [(((simulate sqrt timeScale bodies).getD i dummyBody).x,
          ((simulate sqrt timeScale bodies).getD i dummyBody).y)]) := by
  rw [getD_simulate sqrt timeScale bodies i hi]
  unfold stepBody
  split <;> simp

/-- Closed form of a body's trail after `n` steps: the bounded suffix of the
initial trail followed by the chronological list of per-step positions. -/
theorem tail_stepN (sqrt : α → α) (timeScale : α) (bodies : List (Body α)) (i : Nat)
    (hi : i < bodies.length)
    (h0 : ((bodies.getD i dummyBody).tail).length ≤ tailLength) :
    ∀ n, ((stepN sqrt timeScale bodies n).getD i dummyBody).tail =
      sliceLast tailLength ((bodies.getD i dummyBody).tail ++
        (List.range n).map (fun k => posAt sqrt timeScale bodies i (k + 1)))
  | 0 => by
    show (bodies.getD i dummyBody).tail = _
    rw [List.range_zero, List.map_nil, List.append_nil, sliceLast_of_length_le h0]
  | n + 1 => by
    have hlen : i < (stepN sqrt timeScale bodies n).length := by
      rw [length_stepN]; exact hi
    have ht := tail_simulate sqrt timeScale (stepN sqrt timeScale bodies n) i hlen
    have ih := tail_stepN sqrt timeScale bodies i hi h0 n
    show ((simulate sqrt timeScale (stepN sqrt timeScale bodies n)).getD i dummyBody).tail = _
    rw [ht, ih, sliceLast_sliceLast_append, List.range_succ, List.map_append]
    simp [posAt, stepN, List.append_assoc]

/-- C3: trails are always bounded by `tailLength`, and after more than
`tailLength` steps from an empty trail the trail has length exactly
`tailLength` and holds exactly the most recent `tailLength` per-step positions
in chronological order (oldest first). -/
theorem trail_bound_and_contents (sqrt : α → α) (timeScale : α) (bodies : List (Body α))
    (i m n : Nat) (hi : i < bodies.length)
    (hempty : (bodies.getD i dummyBody).tail = [])
    (hn : tailLength < n) :
    ((stepN sqrt timeScale bodies m).getD i dummyBody).tail.length ≤ tailLength ∧
    ((stepN sqrt timeScale bodies n).getD i dummyBody).tail =
      ((List.range n).map (fun k => posAt sqrt timeScale bodies i (k + 1))).drop
        (n - tailLength) ∧
    ((stepN sqrt timeScale bodies n).getD i dummyBody).tail.length = tailLength := by
  have h0 : ((bodies.getD i dummyBody).tail).length ≤ tailLength := by
    rw [hempty]; exact Nat.zero_le _
  have hm := tail_stepN sqrt timeScale bodies i hi h0 m
  have hbig := tail_stepN sqrt timeScale bodies i hi h0 n
  refine ⟨?_, ?_, ?_⟩
  · rw [hm]; simp [length_sliceLast]
  · rw [hbig, hempty]
    simp [sliceLast]
  · rw [hbig, hempty]
    simp only [List.nil_append, length_sliceLast, List.length_map, List.length_range]
    omega

/-- Witness for C3: the anchor of the initial 800x600 viewport, checked after
7 and after 101 steps. -/
theorem trail_bound_and_contents_witness :
    0 < (initBodies (α := ℚ) 800 600).length ∧
    ((initBodies (α := ℚ) 800 600).getD 0 dummyBody).tail = [] ∧
    tailLength < 101 ∧
    (((stepN (fun q => q) 1 (initBodies (α := ℚ) 800 600) 7).getD 0 dummyBody).tail.length ≤
        tailLength ∧
      ((stepN (fun q => q) 1 (initBodies (α := ℚ) 800 600) 101).getD 0 dummyBody).tail =
        ((List.range 101).map
            (fun k => posAt (fun q => q) 1 (initBodies (α := ℚ) 800 600) 0 (k + 1))).drop
          (101 - tailLength) ∧
      ((stepN (fun q => q) 1 (initBodies (α := ℚ) 800 600) 101).getD 0 dummyBody).tail.length =
        tailLength) :=
  ⟨by decide, rfl, by decide,
    trail_bound_and_contents (fun q => q) 1 (initBodies 800 600) 0 7 101
      (by decide) rfl (by decide)⟩

/-- C2: for every input state whose `i`-th body is the anchor and every
`timeScale`, `simulate` leaves that body's position, velocity, mass, radius and
colour unchanged; its only change is one trail append of its current position,
and the resulting trail stays bounded by `tailLength`. -/
theorem anchor_unchanged_by_simulate (sqrt : α → α) (timeScale : α)
    (bodies : List (Body α)) (i : Nat) (hi : i < bodies.length)
    (hsun : (bodies.getD i dummyBody).isSun = true) :
    (simulate sqrt timeScale bodies).getD i dummyBody =
      { bodies.getD i dummyBody with
        tail := sliceLast tailLength ((bodies.getD i dummyBody).tail ++
          [((bodies.getD i dummyBody).x, (bodies.getD i dummyBody).y)]) } ∧
    ((simulate sqrt timeScale bodies).getD i dummyBody).tail.length ≤ tailLength := by
  rw [getD_simulate sqrt timeScale bodies i hi]
  unfold stepBody
  rw [if_pos hsun]
  exact ⟨rfl, by simp [length_sliceLast]⟩

/-- Witness for C2 at a concrete state: the single anchor of the initial
800x600 viewport. -/
theorem anchor_unchanged_by_simulate_witness :
    0 < (initBodies (α := ℚ) 800 600).length ∧
    ((initBodies (α := ℚ) 800 600).getD 0 dummyBody).isSun = true ∧
    ((simulate (fun q => q) 1 (initBodies (α := ℚ) 800 600)).getD 0 dummyBody =
      { (initBodies (α := ℚ) 800 600).getD 0 dummyBody with
        tail := sliceLast tailLength (((initBodies (α := ℚ) 800 600).getD 0 dummyBody).tail ++
          [(((initBodies (α := ℚ) 800 600).getD 0 dummyBody).x,
            ((initBodies (α := ℚ) 800 600).getD 0 dummyBody).y)]) } ∧
      ((simulate (fun q => q) 1 (initBodies (α := ℚ) 800 600)).getD 0 dummyBody).tail.length ≤
        tailLength) :=
  ⟨by decide, rfl,
    anchor_unchanged_by_simulate (fun q => q) 1 (initBodies 800 600) 0 (by decide) rfl⟩

/-! ## Integration scheme (C6) -/

/-- C6: a non-anchor body is integrated with semi-implicit Euler at effective
timestep `baseTimeStep * timeScale`: the new velocity adds `acceleration * dt`,
and the new position adds `newVelocity * dt` (the updated velocity). -/
theorem semi_implicit_euler_update (sqrt : α → α) (timeScale : α)
    (bodies : List (Body α)) (i : Nat) (hi : i < bodies.length)
    (hns : (bodies.getD i dummyBody).isSun = false) :
    ((simulate sqrt timeScale bodies).getD i dummyBody).vx =
      (bodies.getD i dummyBody).vx +
        (accumAccel sqrt bodies i (bodies.getD i dummyBody)).1 *
          (baseTimeStep * timeScale) ∧
    ((simulate sqrt timeScale bodies).getD i dummyBody).vy =
      (bodies.getD i dummyBody).vy +
        (accumAccel sqrt bodies i (bodies.getD i dummyBody)).2 *
          (baseTimeStep * timeScale) ∧
    ((simulate sqrt timeScale bodies).getD i dummyBody).x =
      (bodies.getD i dummyBody).x +
        ((simulate sqrt timeScale bodies).getD i dummyBody).vx *
          (baseTimeStep * timeScale) ∧
    ((simulate sqrt timeScale bodies).getD i dummyBody).y =
      (bodies.getD i dummyBody).y +
        ((simulate sqrt timeScale bodies).getD i dummyBody).vy *
          (baseTimeStep * timeScale) := by
  rw [getD_simulate sqrt timeScale bodies i hi]
  unfold stepBody
  rw [if_neg (by rw [hns]; simp)]
  refine ⟨by ring, by ring, by ring, by ring⟩

/-- Witness for C6: a concrete anchor-satellite pair over `ℚ` with the identity
in place of the square root. -/
theorem semi_implicit_euler_update_witness :
    1 < ([mkBodyQ 400 300 15 1000 true, mkBodyQ 500 300 4 5 false] : List (Body ℚ)).length ∧
    (([mkBodyQ 400 300 15 1000 true, mkBodyQ 500 300 4 5 false].getD 1 dummyBody).isSun
      = false) ∧
    (((simulate (fun q => q) 1 [mkBodyQ 400 300 15 1000 true,
          mkBodyQ 500 300 4 5 false]).getD 1 dummyBody).vx =
      ([mkBodyQ 400 300 15 1000 true, mkBodyQ 500 300 4 5 false].getD 1 dummyBody).vx +
        (accumAccel (fun q => q) [mkBodyQ 400 300 15 1000 true, mkBodyQ 500 300 4 5 false] 1
            ([mkBodyQ 400 300 15 1000 true, mkBodyQ 500 300 4 5 false].getD 1 dummyBody)).1 *
          (baseTimeStep * 1) ∧
    ((simulate (fun q => q) 1 [mkBodyQ 400 300 15 1000 true,
          mkBodyQ 500 300 4 5 false]).getD 1 dummyBody).vy =
      ([mkBodyQ 400 300 15 1000 true, mkBodyQ 500 300 4 5 false].getD 1 dummyBody).vy +
        (accumAccel (fun q => q) [mkBodyQ 400 300 15 1000 true, mkBodyQ 500 300 4 5 false] 1
            ([mkBodyQ 400 300 15 1000 true, mkBodyQ 500 300 4 5 false].getD 1 dummyBody)).2 *
          (baseTimeStep * 1) ∧
    ((simulate (fun q => q) 1 [mkBodyQ 400 300 15 1000 true,
          mkBodyQ 500 300 4 5 false]).getD 1 dummyBody).x =
      ([mkBodyQ 400 300 15 1000 true, mkBodyQ 500 300 4 5 false].getD 1 dummyBody).x +
        ((simulate (fun q => q) 1 [mkBodyQ 400 300 15 1000 true,
            mkBodyQ 500 300 4 5 false]).getD 1 dummyBody).vx * (baseTimeStep * 1) ∧
    ((simulate (fun q => q) 1 [mkBodyQ 400 300 15 1000 true,
          mkBodyQ 500 300 4 5 false]).getD 1 dummyBody).y =
      ([mkBodyQ 400 300 15 1000 true, mkBodyQ 500 300 4 5 false].getD 1 dummyBody).y +
        ((simulate (fun q => q) 1 [mkBodyQ 400 300 15 1000 true,
            mkBodyQ 500 300 4 5 false]).getD 1 dummyBody).vy * (baseTimeStep * 1)) :=
  ⟨by decide, rfl,
    semi_implicit_euler_update (fun q => q) 1
      [mkBodyQ 400 300 15 1000 true, mkBodyQ 500 300 4 5 false] 1 (by decide) rfl⟩

/-! ## Reset and initial state (C8) -/

/-- C8: both the initial effect and the reset handler replace the collection
with exactly one body, an anchor at the viewport centre with zero velocity and
an empty trail, unconditionally. -/
theorem reset_and_init_single_anchor (width height : α) :
    initBodies width height =
      [{ x := width / 2, y := height / 2, vx := 0, vy := 0, mass := 1000, radius := 15,
         color := "yellow", isSun := true, tail := [] }] ∧
    handleReset width height = initBodies width height ∧
    (initBodies width height).length = 1 ∧
    (handleReset width height).length = 1 ∧
    ((initBodies width height).getD 0 dummyBody).isSun = true :=
  ⟨rfl, rfl, rfl, rfl, rfl⟩

/-! ## Degenerate spawn is not rejected (C1) -/

/-- C1 is violated by the code: clicking exactly on the anchor centre of the
initial 800x600 state is not rejected; `handleCanvasClick` appends a body and
grows the collection from 1 to 2, for every interpretation of the numeric
primitives and of the random draws. -/
theorem spawn_at_anchor_center_appends (sqrt : ℚ → ℚ) (atan2 : ℚ → ℚ → ℚ)
    (cos sin : ℚ → ℚ) (pi : ℚ) (hsl : ℚ → String) (u1 u2 u3 : ℚ) :
    ((initBodies (α := ℚ) 800 600).getD 0 dummyBody).x = 400 ∧
    ((initBodies (α := ℚ) 800 600).getD 0 dummyBody).y = 300 ∧
    (handleCanvasClick sqrt atan2 cos sin pi hsl u1 u2 u3
        (initBodies 800 600) 400 300).length = 2 := by
  refine ⟨by norm_num [initBodies], by norm_num [initBodies], ?_⟩
  simp [handleCanvasClick, initBodies]

/-! ## Frame effects of step and spawn (C10) -/

/-- C10: `simulate` preserves the number and order of bodies and each body's
mass, radius, colour and anchor flag; a successful spawn appends exactly one
body at the end and leaves every pre-existing body unchanged. -/
theorem step_preserves_shape_spawn_appends (sqrt : α → α) (timeScale : α)
    (bodies : List (Body α)) (atan2 : α → α → α) (cos sin : α → α) (pi : α)
    (hsl : α → String) (u1 u2 u3 x y : α) (i : Nat) (hi : i < bodies.length)
    (sun : Body α) (hfind : bodies.find? (fun body => body.isSun) = some sun) :
    (simulate sqrt timeScale bodies).length = bodies.length ∧
    ((simulate sqrt timeScale bodies).getD i dummyBody).mass =
      (bodies.getD i dummyBody).mass ∧
    ((simulate sqrt timeScale bodies).getD i dummyBody).radius =
      (bodies.getD i dummyBody).radius ∧
    ((simulate sqrt timeScale bodies).getD i dummyBody).color =
      (bodies.getD i dummyBody).color ∧
    ((simulate sqrt timeScale bodies).getD i dummyBody).isSun =
      (bodies.getD i dummyBody).isSun ∧
    (handleCanvasClick sqrt atan2 cos sin pi hsl u1 u2 u3 bodies x y).length =
      bodies.length + 1 ∧
    (handleCanvasClick sqrt atan2 cos sin pi hsl u1 u2 u3 bodies x y).take bodies.length =
      bodies := by
  have hb := getD_simulate sqrt timeScale bodies i hi
  refine ⟨length_simulate sqrt timeScale bodies, ?_, ?_, ?_, ?_, ?_, ?_⟩
  · rw [hb]; unfold stepBody; split <;> rfl
  · rw [hb]; unfold stepBody; split <;> rfl
  · rw [hb]; unfold stepBody; split <;> rfl
  · rw [hb]; unfold stepBody; split <;> rfl
  · unfold handleCanvasClick; rw [hfind]; simp
  · unfold handleCanvasClick; rw [hfind]; simp [List.take_left]

/-! ## Anchor uniqueness along every run (C9) -/

theorem isSun_stepBody (sqrt : α → α) (timeScale : α) (bodies : List (Body α))
    (i : Nat) (body : Body α) :
    (stepBody sqrt timeScale bodies i body).isSun = body.isSun := by
  unfold stepBody; split <;> rfl

theorem countP_enumFrom {β : Type} (p : β → Bool) :
    ∀ (l : List β) (n : Nat), (l.enumFrom n).countP (fun q => p q.2) = l.countP p
  | [], _ => rfl
  | a :: t, n => by
    simp [List.enumFrom, List.countP_cons, countP_enumFrom p t (n + 1)]

theorem countP_isSun_simulate (sqrt : α → α) (timeScale : α) (bodies : List (Body α)) :
    (simulate sqrt timeScale bodies).countP (fun body => body.isSun) =
      bodies.countP (fun body => body.isSun) := by
  unfold simulate
  rw [List.countP_map]
  have hc : ((fun (body : Body α) => body.isSun) ∘
      fun p => stepBody sqrt timeScale bodies p.1 p.2) =
      fun (q : Nat × Body α) => q.2.isSun := by
    funext q
    simp [Function.comp, isSun_stepBody]
  rw [hc]
  exact countP_enumFrom _ bodies 0

/-- The body states reachable from initialisation by any interleaving of
resets, steps (at any time scale) and spawn clicks (at any click point and any
random draws), for a fixed interpretation of the numeric primitives. -/
inductive Reachable (sqrt : α → α) (atan2 : α → α → α) (cos sin : α → α) (pi : α)
    (hsl : α → String) : List (Body α) → Prop
  | init (width height : α) : Reachable sqrt atan2 cos sin pi hsl (initBodies width height)
  | reset (width height : α) :
      Reachable sqrt atan2 cos sin pi hsl (handleReset width height)
  | step (timeScale : α) (s : List (Body α)) :
      Reachable sqrt atan2 cos sin pi hsl s →
      Reachable sqrt atan2 cos sin pi hsl (simulate sqrt timeScale s)
  | spawn (u1 u2 u3 x y : α) (s : List (Body α)) :
      Reachable sqrt atan2 cos sin pi hsl s →
      Reachable sqrt atan2 cos sin pi hsl
        (handleCanvasClick sqrt atan2 cos sin pi hsl u1 u2 u3 s x y)

/-- C9: every state reachable from initialisation or reset by steps and spawns
has exactly one body with the anchor flag set. -/
theorem exactly_one_anchor_reachable (sqrt : α → α) (atan2 : α → α → α)
    (cos sin : α → α) (pi : α) (hsl : α → String) (s : List (Body α))
    (h : Reachable sqrt atan2 cos sin pi hsl s) :
    s.countP (fun body => body.isSun) = 1 := by
  induction h with
  | init width height => simp [initBodies, List.countP_cons]
  | reset width height => simp [handleReset, List.countP_cons]
  | step timeScale s hs ih => rw [countP_isSun_simulate]; exact ih
  | spawn u1 u2 u3 x y s hs ih =>
    unfold handleCanvasClick
    split
    · exact ih
    · rw [List.countP_append]
      simpa [List.countP_cons] using ih

/-- Witness for C9: the initial 800x600 state, reached by the `init` rule. -/
theorem exactly_one_anchor_reachable_witness :
    Reachable (fun q => q) (fun _ _ => 0) (fun _ => 0) (fun _ => 0) 0 (fun _ => "")
      (initBodies (α := ℚ) 800 600) ∧
    (initBodies (α := ℚ) 800 600).countP (fun body => body.isSun) = 1 :=
  ⟨Reachable.init 800 600,
    exactly_one_anchor_reachable (fun q => q) (fun _ _ => 0) (fun _ => 0) (fun _ => 0) 0
      (fun _ => "") (initBodies 800 600) (Reachable.init 800 600)⟩

/-! ## Orbit seeding (C7), over the real numbers -/

/-- C7: with the numeric primitives interpreted over `ℝ` (`Math.atan2 yv xv`
as the argument of the complex number `xv + i yv`), a spawn at nonzero
distance from the anchor seeds the velocity `speed * (cos angle, sin angle)`
with `speed = sqrt (G * M / d) * 0.8` and `angle = atan2 dy dx + pi / 2`; that
velocity has magnitude exactly `sqrt (G * M / d) * 0.8` and is perpendicular
to the radius vector, for every value of the random draws. -/
theorem seeded_velocity_tangential (hsl : ℝ → String) (u1 u2 u3 : ℝ)
    (bodies : List (Body ℝ)) (x y : ℝ) (sun : Body ℝ)
    (hfind : bodies.find? (fun body => body.isSun) = some sun)
    (hd : Real.sqrt ((x - sun.x) * (x - sun.x) + (y - sun.y) * (y - sun.y)) ≠ 0) :
    ((handleCanvasClick Real.sqrt (fun yv xv => Complex.arg ⟨xv, yv⟩) Real.cos Real.sin
        Real.pi hsl u1 u2 u3 bodies x y).getLastD dummyBody).vx =
      Real.sqrt (G * sun.mass /
          Real.sqrt ((x - sun.x) * (x - sun.x) + (y - sun.y) * (y - sun.y))) * (4 / 5) *
        Real.cos (Complex.arg ⟨x - sun.x, y - sun.y⟩ + Real.pi / 2) ∧
    ((handleCanvasClick Real.sqrt (fun yv xv => Complex.arg ⟨xv, yv⟩) Real.cos Real.sin
        Real.pi hsl u1 u2 u3 bodies x y).getLastD dummyBody).vy =
      Real.sqrt (G * sun.mass /
          Real.sqrt ((x - sun.x) * (x - sun.x) + (y - sun.y) * (y - sun.y))) * (4 / 5) *
        Real.sin (Complex.arg ⟨x - sun.x, y - sun.y⟩ + Real.pi / 2) ∧
    Real.sqrt
        (((handleCanvasClick Real.sqrt (fun yv xv => Complex.arg ⟨xv, yv⟩) Real.cos Real.sin
            Real.pi hsl u1 u2 u3 bodies x y).getLastD dummyBody).vx ^ 2 +
         ((handleCanvasClick Real.sqrt (fun yv xv => Complex.arg ⟨xv, yv⟩) Real.cos Real.sin
            Real.pi hsl u1 u2 u3 bodies x y).getLastD dummyBody).vy ^ 2) =
      Real.sqrt (G * sun.mass /
          Real.sqrt ((x - sun.x) * (x - sun.x) + (y - sun.y) * (y - sun.y))) * (4 / 5) ∧
    ((handleCanvasClick Real.sqrt (fun yv xv => Complex.arg ⟨xv, yv⟩) Real.cos Real.sin
          Real.pi hsl u1 u2 u3 bodies x y).getLastD dummyBody).vx * (x - sun.x) +
      ((handleCanvasClick Real.sqrt (fun yv xv => Complex.arg ⟨xv, yv⟩) Real.cos Real.sin
          Real.pi hsl u1 u2 u3 bodies x y).getLastD dummyBody).vy * (y - sun.y) = 0 := by
  have hlast : (handleCanvasClick Real.sqrt (fun yv xv => Complex.arg ⟨xv, yv⟩) Real.cos
      Real.sin Real.pi hsl u1 u2 u3 bodies x y).getLastD dummyBody =
      { x := x, y := y,
        vx := Real.sqrt (G * sun.mass /
            Real.sqrt ((x - sun.x) * (x - sun.x) + (y - sun.y) * (y - sun.y))) * (4 / 5) *
          Real.cos (Complex.arg ⟨x - sun.x, y - sun.y⟩ + Real.pi / 2),
        vy := Real.sqrt (G * sun.mass /
            Real.sqrt ((x - sun.x) * (x - sun.x) + (y - sun.y) * (y - sun.y))) * (4 / 5) *
          Real.sin (Complex.arg ⟨x - sun.x, y - sun.y⟩ + Real.pi / 2),
        mass := 1 + u1 * 9, radius := 3 + u2 * 5, color := hsl (u3 * 360),
        isSun := false, tail := [] } := by
    unfold handleCanvasClick
    rw [hfind]
    simp [List.getLastD_concat]
  rw [hlast]
  set s : ℝ := Real.sqrt (G * sun.mass /
      Real.sqrt ((x - sun.x) * (x - sun.x) + (y - sun.y) * (y - sun.y))) * (4 / 5) with hs
  have hs0 : 0 ≤ s := mul_nonneg (Real.sqrt_nonneg _) (by norm_num)
  have habs : Complex.abs ⟨x - sun.x, y - sun.y⟩ =
      Real.sqrt ((x - sun.x) * (x - sun.x) + (y - sun.y) * (y - sun.y)) := by
    rw [Complex.abs_apply, Complex.normSq_mk]
  have hz : (⟨x - sun.x, y - sun.y⟩ : ℂ) ≠ 0 := by
    intro h0
    apply hd
    rw [← habs, h0]
    simp
  refine ⟨rfl, rfl, ?_, ?_⟩
  · have hsq : (s * Real.cos (Complex.arg ⟨x - sun.x, y - sun.y⟩ + Real.pi / 2)) ^ 2 +
        (s * Real.sin (Complex.arg ⟨x - sun.x, y - sun.y⟩ + Real.pi / 2)) ^ 2 = s ^ 2 := by
      have ht := Real.sin_sq_add_cos_sq (Complex.arg ⟨x - sun.x, y - sun.y⟩ + Real.pi / 2)
      nlinarith [ht]
    rw [hsq]
    exact Real.sqrt_sq hs0
  · rw [Real.cos_add_pi_div_two, Real.sin_add_pi_div_two, Complex.sin_arg,
      Complex.cos_arg hz, habs]
    simp only [Complex.ofReal_re, Complex.ofReal_im]
    field_simp
    ring

/-- A concrete real anchor body, for the C7 witness. -/
def rAnchor : Body ℝ :=
  { x := 400, y := 300, vx := 0, vy := 0, mass := 1000, radius := 15,
    color := "yellow", isSun := true, tail := [] }

/-- Witness for C7: anchor of mass 1000 at (400, 300), click at (500, 300). -/
theorem seeded_velocity_tangential_witness :
    ([rAnchor].find? (fun body => body.isSun) = some rAnchor) ∧
    Real.sqrt ((500 - rAnchor.x) * (500 - rAnchor.x) +
        (300 - rAnchor.y) * (300 - rAnchor.y)) ≠ 0 ∧
    (((handleCanvasClick Real.sqrt (fun yv xv => Complex.arg ⟨xv, yv⟩) Real.cos Real.sin
        Real.pi (fun _ => "") 0 0 0 [rAnchor] 500 300).getLastD dummyBody).vx =
      Real.sqrt (G * rAnchor.mass /
          Real.sqrt ((500 - rAnchor.x) * (500 - rAnchor.x) +
            (300 - rAnchor.y) * (300 - rAnchor.y))) * (4 / 5) *
        Real.cos (Complex.arg ⟨500 - rAnchor.x, 300 - rAnchor.y⟩ + Real.pi / 2) ∧
    ((handleCanvasClick Real.sqrt (fun yv xv => Complex.arg ⟨xv, yv⟩) Real.cos Real.sin
        Real.pi (fun _ => "") 0 0 0 [rAnchor] 500 300).getLastD dummyBody).vy =
      Real.sqrt (G * rAnchor.mass /
          Real.sqrt ((500 - rAnchor.x) * (500 - rAnchor.x) +
            (300 - rAnchor.y) * (300 - rAnchor.y))) * (4 / 5) *
        Real.sin (Complex.arg ⟨500 - rAnchor.x, 300 - rAnchor.y⟩ + Real.pi / 2) ∧
    Real.sqrt
        (((handleCanvasClick Real.sqrt (fun yv xv => Complex.arg ⟨xv, yv⟩) Real.cos Real.sin
            Real.pi (fun _ => "") 0 0 0 [rAnchor] 500 300).getLastD dummyBody).vx ^ 2 +
         ((handleCanvasClick Real.sqrt (fun yv xv => Complex.arg ⟨xv, yv⟩) Real.cos Real.sin
            Real.pi (fun _ => "") 0 0 0 [rAnchor] 500 300).getLastD dummyBody).vy ^ 2) =
      Real.sqrt (G * rAnchor.mass /
          Real.sqrt ((500 - rAnchor.x) * (500 - rAnchor.x) +
            (300 - rAnchor.y) * (300 - rAnchor.y))) * (4 / 5) ∧
    ((handleCanvasClick Real.sqrt (fun yv xv => Complex.arg ⟨xv, yv⟩) Real.cos Real.sin
          Real.pi (fun _ => "") 0 0 0 [rAnchor] 500 300).getLastD dummyBody).vx *
        (500 - rAnchor.x) +
      ((handleCanvasClick Real.sqrt (fun yv xv => Complex.arg ⟨xv, yv⟩) Real.cos Real.sin
          Real.pi (fun _ => "") 0 0 0 [rAnchor] 500 300).getLastD dummyBody).vy *
        (300 - rAnchor.y) = 0) := by
  have hfind : [rAnchor].find? (fun body => body.isSun) = some rAnchor := rfl
  have hd : Real.sqrt ((500 - rAnchor.x) * (500 - rAnchor.x) +
      (300 - rAnchor.y) * (300 - rAnchor.y)) ≠ 0 := by
    rw [show ((500 : ℝ) - rAnchor.x) * ((500 : ℝ) - rAnchor.x) +
        ((300 : ℝ) - rAnchor.y) * ((300 : ℝ) - rAnchor.y) = 100 ^ 2 from by
      norm_num [rAnchor]]
    rw [Real.sqrt_sq (by norm_num)]
    norm_num
  exact ⟨hfind, hd,
    seeded_velocity_tangential (fun _ => "") 0 0 0 [rAnchor] 500 300 rAnchor hfind hd⟩

/-- Witness for C10: a concrete two-body state over `ℚ`. -/
theorem step_preserves_shape_spawn_appends_witness :
    0 < ([mkBodyQ 400 300 15 1000 true, mkBodyQ 500 300 4 5 false] : List (Body ℚ)).length ∧
    ([mkBodyQ 400 300 15 1000 true, mkBodyQ 500 300 4 5 false].find?
        (fun body => body.isSun) = some (mkBodyQ 400 300 15 1000 true)) ∧
    ((simulate (fun q => q) 1
        [mkBodyQ 400 300 15 1000 true, mkBodyQ 500 300 4 5 false]).length =
      ([mkBodyQ 400 300 15 1000 true, mkBodyQ 500 300 4 5 false] : List (Body ℚ)).length ∧
    ((simulate (fun q => q) 1 [mkBodyQ 400 300 15 1000 true,
        mkBodyQ 500 300 4 5 false]).getD 0 dummyBody).mass =
      ([mkBodyQ 400 300 15 1000 true, mkBodyQ 500 300 4 5 false].getD 0 dummyBody).mass ∧
    ((simulate (fun q => q) 1 [mkBodyQ 400 300 15 1000 true,
        mkBodyQ 500 300 4 5 false]).getD 0 dummyBody).radius =
      ([mkBodyQ 400 300 15 1000 true, mkBodyQ 500 300 4 5 false].getD 0 dummyBody).radius ∧
    ((simulate (fun q => q) 1 [mkBodyQ 400 300 15 1000 true,
        mkBodyQ 500 300 4 5 false]).getD 0 dummyBody).color =
      ([mkBodyQ 400 300 15 1000 true, mkBodyQ 500 300 4 5 false].getD 0 dummyBody).color ∧
    ((simulate (fun q => q) 1 [mkBodyQ 400 300 15 1000 true,
        mkBodyQ 500 300 4 5 false]).getD 0 dummyBody).isSun =
      ([mkBodyQ 400 300 15 1000 true, mkBodyQ 500 300 4 5 false].getD 0 dummyBody).isSun ∧
    (handleCanvasClick (fun q => q) (fun _ _ => 0) (fun _ => 0) (fun _ => 0) 0 (fun _ => "")
        0 0 0 [mkBodyQ 400 300 15 1000 true, mkBodyQ 500 300 4 5 false] 7 8).length =
      ([mkBodyQ 400 300 15 1000 true, mkBodyQ 500 300 4 5 false] : List (Body ℚ)).length +
        1 ∧
    (handleCanvasClick (fun q => q) (fun _ _ => 0) (fun _ => 0) (fun _ => 0) 0 (fun _ => "")
        0 0 0 [mkBodyQ 400 300 15 1000 true, mkBodyQ 500 300 4 5 false] 7 8).take
      ([mkBodyQ 400 300 15 1000 true, mkBodyQ 500 300 4 5 false] : List (Body ℚ)).length =
      [mkBodyQ 400 300 15 1000 true, mkBodyQ 500 300 4 5 false]) :=
  ⟨by decide, rfl,
    step_preserves_shape_spawn_appends (fun q => q) 1
      [mkBodyQ 400 300 15 1000 true, mkBodyQ 500 300 4 5 false]
      (fun _ _ => 0) (fun _ => 0) (fun _ => 0) 0 (fun _ => "") 0 0 0 7 8 0 (by decide)
      (mkBodyQ 400 300 15 1000 true) rfl⟩
